import Mathlib

/-!
Verification development for the LC-3 two-pass assembler
(`src/assembler/keywords.py`, `src/assembler/lc3token.py`,
`src/assembler/lc3encodings.py`, `src/assembler/assembler.py`).

The Python source is shallowly embedded: Python ints become `Nat`/`Int`
(Python's `x & (2^k - 1)` on a possibly negative `x` is `Int.emod x (2^k)`),
Python exceptions (KeyError, IndexError, TypeError, AttributeError) become
`none` of an `Option` result, and `dict` becomes an insertion-ordered
association list with overwriting insertion.
-/

namespace LC3

/-- `TokenType` enum from `lc3token.py`. -/
inductive TokenType where
  | LABEL
  | OPCODE
  | ASSEMBLER_DIRECTIVE
  | CONST
  | REGISTER
  | STRING
  | TRAP_CODE
  | NULL_TOKEN
deriving DecidableEq, Repr

/-- `Token` dataclass from `lc3token.py`: a textual value and a type tag. -/
structure Token where
  value : String
  token_type : TokenType
deriving DecidableEq, Repr

/-- `keywords.opcodes` from `keywords.py` (insertion order kept). -/
def opcodes : List (String × Nat) :=
  [("ADD", 0x1), ("AND", 0x5), ("BR", 0x0), ("JMP", 0xC), ("JSR", 0x4),
   ("LD", 0x2), ("LDI", 0xA), ("LDR", 0x6), ("LEA", 0xE), ("NOT", 0x9),
   ("RET", 0xC), ("RTI", 0x8), ("ST", 0x3), ("STI", 0xB), ("STR", 0x7),
   ("TRAP", 0xF)]

/-- `keywords.trap_codes` from `keywords.py`. -/
def trap_codes : List (String × Nat) :=
  [("GETC", 0x20), ("OUT", 0x21), ("PUTS", 0x22), ("IN", 0x23),
   ("PUTSP", 0x24), ("HALT", 0x25)]

/-- `keywords.registers` from `keywords.py`, exactly as in the source
(the same dict appears as `registers_dict` in `src/assembler.py`):
note the source skips `R2` and gives `R3` the code 2. -/
def registers : List (String × Nat) :=
  [("R0", 0x0), ("R1", 0x1), ("R3", 0x2), ("R4", 0x3), ("R5", 0x4),
   ("R6", 0x5), ("R7", 0x6), ("R_PC", 0x7), ("R_COND", 0x8), ("R_COUNT", 0x9)]

/-- `keywords.opcodes_trapcodes`: the opcode keys followed by the trap keys. -/
def opcodes_trapcodes : List String :=
  (opcodes.map Prod.fst) ++ (trap_codes.map Prod.fst)

/-! ## Lexer (`lc3token.tokenize_line`) -/

/-- Split a character list at characters satisfying `p`, dropping empty
pieces.  With `p = Char.isWhitespace` this is Python's `str.split()`;
composed after a comma split plus the `if x` filter it also models
`[x for x in s.split(",") if x]`. -/
def splitDrop (p : Char → Bool) : List Char → List Char → List (List Char)
  | [], acc => if acc.isEmpty then [] else [acc.reverse]
  | c :: cs, acc =>
    if p c then
      (if acc.isEmpty then splitDrop p cs [] else acc.reverse :: splitDrop p cs [])
    else splitDrop p cs (c :: acc)

/-- Python `str.strip()`: drop whitespace at both ends. -/
def strip (l : List Char) : List Char :=
  ((l.dropWhile Char.isWhitespace).reverse.dropWhile Char.isWhitespace).reverse

/-- `line.split(";")[0]` followed by `.split()`: the whitespace-separated
fragments of the line with the `;` comment removed. -/
def fragments (line : String) : List (List Char) :=
  splitDrop Char.isWhitespace (line.data.takeWhile (fun c => c ≠ ';')) []

/-- `[x for x in substring.split(",") if x]`: nonempty comma-separated
pieces of one whitespace fragment. -/
def commaPieces (frag : List Char) : List (List Char) :=
  splitDrop (fun c => c == ',') frag []

/-- The token-type classification cascade in `tokenize_line`
(`lc3token.py` lines 56-85).  `token_idx` is the index of the
whitespace fragment the token came from. -/
def classify_token (token_idx : Nat) (tok : List Char) : TokenType :=
  if (List.lookup (⟨tok⟩ : String) opcodes).isSome then TokenType.OPCODE
  else if tok.head? == some '.' then TokenType.ASSEMBLER_DIRECTIVE
  else if (List.lookup (⟨tok⟩ : String) registers).isSome then TokenType.REGISTER
  else if (List.lookup (⟨tok⟩ : String) trap_codes).isSome then TokenType.TRAP_CODE
  else if token_idx == 0 then TokenType.LABEL
  else TokenType.CONST

/-- The nested loop of `tokenize_line`: `token_idx` advances once per
whitespace fragment, and every comma piece of the fragment becomes a
`Token` with value `token.strip()`. -/
def tokenize_frags : Nat → List (List Char) → List Token
  | _, [] => []
  | i, f :: rest =>
    ((commaPieces f).map (fun p => ⟨⟨strip p⟩, classify_token i p⟩))
      ++ tokenize_frags (i + 1) rest

/-- `lc3token.tokenize_line`. -/
def tokenize_line (line : String) : List Token :=
  tokenize_frags 0 (fragments line)

/-! ## Pass 1 (`assembler.scan`) -/

/-- Value of a hexadecimal digit character, `none` otherwise. -/
def hexDigit? (c : Char) : Option Nat :=
  if 48 ≤ c.toNat ∧ c.toNat ≤ 57 then some (c.toNat - 48)
  else if 97 ≤ c.toNat ∧ c.toNat ≤ 102 then some (c.toNat - 87)
  else if 65 ≤ c.toNat ∧ c.toNat ≤ 70 then some (c.toNat - 55)
  else none

/-- Parse a nonempty run of hex digits; `none` (Python `ValueError`)
otherwise. -/
def hexDigits (l : List Char) : Option Nat :=
  if l.isEmpty then none
  else l.foldlM (fun acc c => (hexDigit? c).map (fun d => acc * 16 + d)) 0

/-- Python `int(s, 16)` as used on `'0' + tokens[1].value`: an optional
`0x`/`0X` prefix followed by hex digits. -/
def pyIntHex (l : List Char) : Option Nat :=
  match l with
  | '0' :: 'x' :: rest => hexDigits rest
  | '0' :: 'X' :: rest => hexDigits rest
  | _ => hexDigits l

/-- Python `dict` assignment `d[k] = v` on an insertion-ordered
association list: overwrite in place if the key exists, else append. -/
def dictInsert (tbl : List (String × Nat)) (k : String) (v : Nat) :
    List (String × Nat) :=
  if (List.lookup k tbl).isSome then
    tbl.map (fun p => if p.1 == k then (k, v) else p)
  else tbl ++ [(k, v)]

/-- Result of `assembler.scan`: the symbol table, the per-line metadata
(tokens of each retained line paired with the location counter recorded
*after* the line was processed — the source stores `hex(location_counter)`,
recovered exactly by `int(_, 16)` in pass 2, so we keep the `Nat`), and
whether the duplicate-label `print("ERROR: ...")` at line 59 fired.
The source's early `return` on a duplicate label is commented out
(`#return`), so scanning continues and the label is overwritten. -/
structure ScanResult where
  symbol_table : List (String × Nat)
  lines_metadata : List (List Token × Nat)
  dup_label_error : Bool
deriving DecidableEq, Repr

/-- The per-line loop of `assembler.scan` (`src/assembler/assembler.py`
lines 42-92).  `none` models an uncaught Python exception (e.g. an
`IndexError` on a bare `.ORIG`, or a `ValueError` from `int`). -/
def scanLines : List String → List (String × Nat) → List (List Token × Nat) →
    Nat → Bool → Option ScanResult
  | [], st, md, _, e => some ⟨st, md, e⟩
  | line :: rest, st, md, lc, e =>
    match tokenize_line line with
    | [] => scanLines rest st md lc e
    | t0 :: ts =>
      let tokens := t0 :: ts
      if t0.value = ".END" then
        -- CASE 1: append the line and break
        some ⟨st, md ++ [(tokens, lc)], e⟩
      else
        -- CASE 2: a leading LABEL is bound (after checking for a duplicate)
        let e' := e || (t0.token_type == TokenType.LABEL
                          && (List.lookup t0.value st).isSome)
        let st' := if t0.token_type == TokenType.LABEL
                   then dictInsert st t0.value lc else st
        do
          -- CASE 3: directive handling (`if ... .ORIG` / `elif ... .STRINGZ`)
          let (st2, lc2) ←
            if t0.token_type == TokenType.ASSEMBLER_DIRECTIVE then
              if t0.value = ".ORIG" then do
                let t1 ← tokens.get? 1
                let v ← pyIntHex ('0' :: t1.value.data)
                pure (st', v)
              else pure (st', lc)
            else if (tokens.get? 1).any
                      (fun t1 => t1.token_type == TokenType.ASSEMBLER_DIRECTIVE) then
              if (tokens.get? 1).any (fun t1 => t1.value == ".STRINGZ") then do
                let t2 ← tokens.get? 2
                pure (dictInsert st' t0.value lc, lc + t2.value.length + 1)
              else pure (st', lc)
            else pure (st', lc)
          -- CASES 4 and 5: an OPCODE or TRAP_CODE advances the counter.
          -- Note tokens[0] is tested, so a line led by a LABEL never advances.
          let lc3 := lc2 + (if t0.token_type == TokenType.OPCODE then 1 else 0)
                         + (if t0.token_type == TokenType.TRAP_CODE then 1 else 0)
          scanLines rest st2 (md ++ [(tokens, lc3)]) lc3 e'

/-- `assembler.scan` on the list of source lines (symbol table starts
empty, location counter starts at 0). -/
def scan (lines : List String) : Option ScanResult :=
  scanLines lines [] [] 0 false

/-! ## Encoders (`lc3encodings.py`)

Each `encode_*` receives the mnemonic, the symbol table, the line's
recorded location counter (pass 2 receives it as the hex string
`hex(location_counter)`; encoders that apply `int(_, 16)` see this `Nat`,
encoders that use the raw string crash) and the token list.  `none`
models an uncaught Python exception. -/

/-- Python `x & (2^k - 1)` for a possibly negative `x`. -/
def pymask (x : Int) (k : Nat) : Nat := (x.emod (2 ^ k)).toNat

/-- `lc3encodings.encode_add`.  Note the source reads `tokens[1]` for
*both* the DR and SR1 fields, and in immediate mode evaluates
`UINT16_MAX + tokens[3].value` where the value is the raw operand
string (e.g. `"#1"`), raising `TypeError` — no numeric operand parsing
exists anywhere in the source. -/
def encode_add (opcode : String) (symbol_table : List (String × Nat))
    (_location_counter : Nat) (tokens : List Token) : Option Nat := do
  let _ := symbol_table
  let t1 ← tokens.get? 1
  let t3 ← tokens.get? 3
  if t3.token_type == TokenType.REGISTER then
    let op ← List.lookup opcode opcodes
    let r1 ← List.lookup t1.value registers
    let r3 ← List.lookup t3.value registers
    pure (op <<< 12 ||| r1 <<< 9 ||| r1 <<< 6 ||| r3)
  else
    none  -- TypeError: int + str

/-- `lc3encodings.encode_and`: same body as `encode_add` with its
own opcode. -/
def encode_and (opcode : String) (symbol_table : List (String × Nat))
    (_location_counter : Nat) (tokens : List Token) : Option Nat := do
  let _ := symbol_table
  let t1 ← tokens.get? 1
  let t3 ← tokens.get? 3
  if t3.token_type == TokenType.REGISTER then
    let op ← List.lookup opcode opcodes
    let r1 ← List.lookup t1.value registers
    let r3 ← List.lookup t3.value registers
    pure (op <<< 12 ||| r1 <<< 9 ||| r1 <<< 6 ||| r3)
  else
    none  -- TypeError: int + str

/-- `lc3encodings.encode_not`.  The source ORs in `0b11111` (five ones),
although the comment block in `assembler.py` documents the layout as
`1001 | DR | SR | 1 | 11111` (six ones). -/
def encode_not (opcode : String) (_symbol_table : List (String × Nat))
    (_location_counter : Nat) (tokens : List Token) : Option Nat := do
  let t1 ← tokens.get? 1
  let t2 ← tokens.get? 2
  let op ← List.lookup opcode opcodes
  let r1 ← List.lookup t1.value registers
  let r2 ← List.lookup t2.value registers
  pure (op <<< 12 ||| r1 <<< 9 ||| r2 <<< 6 ||| 0b11111)

/-- `lc3encodings.encode_br`: the body reads `tokens[0].v` (the `Token`
dataclass has no attribute `v`) and ORs into an unbound local `op`,
so every call raises `AttributeError`/`NameError`. -/
def encode_br (_opcode : String) (_symbol_table : List (String × Nat))
    (_location_counter : Nat) (_tokens : List Token) : Option Nat :=
  none

/-- `lc3encodings.encode_jmp`. -/
def encode_jmp (opcode : String) (_symbol_table : List (String × Nat))
    (_location_counter : Nat) (tokens : List Token) : Option Nat := do
  let t1 ← tokens.get? 1
  let op ← List.lookup opcode opcodes
  let r1 ← List.lookup t1.value registers
  pure (op <<< 12 ||| 0 <<< 9 ||| r1 <<< 6 ||| 0)

/-- `lc3encodings.encode_jsr`: computes
`symbol_table[tokens[1].value] - location_counter` where
`location_counter` is the hex *string* stored by pass 1, so every call
raises `TypeError` (after a possible `KeyError`). -/
def encode_jsr (_opcode : String) (_symbol_table : List (String × Nat))
    (_location_counter : Nat) (_tokens : List Token) : Option Nat :=
  none

/-- `lc3encodings.encode_ld`: `opc << 12 | DR << 9 |
(symbol_table[L] - int(location_counter, 16)) & 0b111111111`. -/
def encode_ld (opcode : String) (symbol_table : List (String × Nat))
    (location_counter : Nat) (tokens : List Token) : Option Nat := do
  let t1 ← tokens.get? 1
  let t2 ← tokens.get? 2
  let op ← List.lookup opcode opcodes
  let r1 ← List.lookup t1.value registers
  let a ← List.lookup t2.value symbol_table
  pure (op <<< 12 ||| r1 <<< 9 ||| pymask ((a : Int) - (location_counter : Int)) 9)

/-- `lc3encodings.encode_ldi`: identical body to `encode_ld`. -/
def encode_ldi (opcode : String) (symbol_table : List (String × Nat))
    (location_counter : Nat) (tokens : List Token) : Option Nat := do
  let t1 ← tokens.get? 1
  let t2 ← tokens.get? 2
  let op ← List.lookup opcode opcodes
  let r1 ← List.lookup t1.value registers
  let a ← List.lookup t2.value symbol_table
  pure (op <<< 12 ||| r1 <<< 9 ||| pymask ((a : Int) - (location_counter : Int)) 9)

/-- `lc3encodings.encode_ldr`: the offset6 term evaluates
`UINT16_MAX + tokens[3].value` on the raw operand string → `TypeError`
on every call. -/
def encode_ldr (_opcode : String) (_symbol_table : List (String × Nat))
    (_location_counter : Nat) (_tokens : List Token) : Option Nat :=
  none

/-- `lc3encodings.encode_lea`: like `encode_ld` but the offset is masked
with `0b11111111` — eight ones, not the nine of the PCoffset9 field. -/
def encode_lea (opcode : String) (symbol_table : List (String × Nat))
    (location_counter : Nat) (tokens : List Token) : Option Nat := do
  let t1 ← tokens.get? 1
  let t2 ← tokens.get? 2
  let op ← List.lookup opcode opcodes
  let r1 ← List.lookup t1.value registers
  let a ← List.lookup t2.value symbol_table
  pure (op <<< 12 ||| r1 <<< 9 ||| pymask ((a : Int) - (location_counter : Int)) 8)

/-- `lc3encodings.encode_st`: identical body to `encode_ld`. -/
def encode_st (opcode : String) (symbol_table : List (String × Nat))
    (location_counter : Nat) (tokens : List Token) : Option Nat := do
  let t1 ← tokens.get? 1
  let t2 ← tokens.get? 2
  let op ← List.lookup opcode opcodes
  let r1 ← List.lookup t1.value registers
  let a ← List.lookup t2.value symbol_table
  pure (op <<< 12 ||| r1 <<< 9 ||| pymask ((a : Int) - (location_counter : Int)) 9)

/-- `lc3encodings.encode_sti`: identical body to `encode_ld`. -/
def encode_sti (opcode : String) (symbol_table : List (String × Nat))
    (location_counter : Nat) (tokens : List Token) : Option Nat := do
  let t1 ← tokens.get? 1
  let t2 ← tokens.get? 2
  let op ← List.lookup opcode opcodes
  let r1 ← List.lookup t1.value registers
  let a ← List.lookup t2.value symbol_table
  pure (op <<< 12 ||| r1 <<< 9 ||| pymask ((a : Int) - (location_counter : Int)) 9)

/-- `lc3encodings.encode_str`: same `TypeError` as `encode_ldr`. -/
def encode_str (_opcode : String) (_symbol_table : List (String × Nat))
    (_location_counter : Nat) (_tokens : List Token) : Option Nat :=
  none

/-- `lc3encodings.encode_trap`: `opcodes["TRAP"] << 12 |
trap_codes[tokens[0].value]`. -/
def encode_trap (_opcode : String) (_symbol_table : List (String × Nat))
    (_location_counter : Nat) (tokens : List Token) : Option Nat := do
  let t0 ← tokens.get? 0
  let opT ← List.lookup "TRAP" opcodes
  let tc ← List.lookup t0.value trap_codes
  pure (opT <<< 12 ||| tc)

/-- `lc3encodings.encode_rti`. -/
def encode_rti (_opcode : String) (_symbol_table : List (String × Nat))
    (_location_counter : Nat) (_tokens : List Token) : Option Nat :=
  some 0b1000000000000000

/-- The `lc3encodings.encodings` dispatch dict (note it has no entry for
`"RET"`, though `"RET"` is a key of `opcodes`). -/
def encodings (name : String) :
    Option (String → List (String × Nat) → Nat → List Token → Option Nat) :=
  match name with
  | "ADD" => some encode_add
  | "AND" => some encode_and
  | "NOT" => some encode_not
  | "BR" => some encode_br
  | "JMP" => some encode_jmp
  | "JSR" => some encode_jsr
  | "LD" => some encode_ld
  | "LDI" => some encode_ldi
  | "LDR" => some encode_ldr
  | "LEA" => some encode_lea
  | "ST" => some encode_st
  | "STI" => some encode_sti
  | "STR" => some encode_str
  | "TRAP" => some encode_trap
  | "RTI" => some encode_rti
  | "GETC" => some encode_trap
  | "OUT" => some encode_trap
  | "PUTS" => some encode_trap
  | "IN" => some encode_trap
  | "PUTSP" => some encode_trap
  | "HALT" => some encode_trap
  | _ => none

/-! ## Pass 2 (`assembler.generate`) -/

/-- `array("H").append` rejects values outside `[0, 2^16)` with
`OverflowError`. -/
def word16? (w : Nat) : Option Nat :=
  if w < 65536 then some w else none

/-- One `CONDS[tokens[0].value](tokens, data, sym, lc)` call from
`generate`: the `.STRINGZ` handler appends the bytes of the raw token
text (`tokens[1].value.encode()`; source text is ASCII, so one byte per
character with value `Char.toNat`) followed by a zero word, and every
opcode/trap key appends the word its encoder returns.  A key absent
from `CONDS` is a `KeyError`. -/
def dispatchCond (tokens : List Token) (data : List Nat)
    (symbol_table : List (String × Nat)) (lc : Nat) : Option (List Nat) := do
  let t0 ← tokens.get? 0
  if t0.value = ".STRINGZ" then do
    let t1 ← tokens.get? 1
    pure (data ++ t1.value.data.map Char.toNat ++ [0])
  else if opcodes_trapcodes.contains t0.value then do
    let enc ← encodings t0.value
    let w ← enc t0.value symbol_table lc tokens
    let w ← word16? w
    pure (data ++ [w])
  else
    none  -- KeyError in CONDS

/-- The loop over `lines_metadata[1:]` in `generate`: `.END` breaks; a
line not led by a LABEL dispatches on `tokens[0]`, a LABEL-led line of
more than one token dispatches on `tokens[1]` with `tokens[1:]`, and a
bare label line is skipped. -/
def generateLines : List (List Token × Nat) → List Nat →
    List (String × Nat) → Option (List Nat)
  | [], data, _ => some data
  | (tokens, lc) :: rest, data, st =>
    match tokens.get? 0 with
    | none => none  -- tokens[0] on an empty token list: IndexError
    | some t0 =>
      if t0.value = ".END" then some data
      else if t0.token_type != TokenType.LABEL then do
        let data' ← dispatchCond tokens data st lc
        generateLines rest data' st
      else if tokens.length ≠ 1 then do
        let data' ← dispatchCond tokens.tail data st lc
        generateLines rest data' st
      else generateLines rest data st

/-- `assembler.generate`: the origin word
`int('0' + lines_metadata[0][0][1].value, 16)` followed by the words of
the remaining lines. -/
def generate (symbol_table : List (String × Nat))
    (lines_metadata : List (List Token × Nat)) : Option (List Nat) := do
  let first ← lines_metadata.get? 0
  let t1 ← first.1.get? 1
  let origin ← pyIntHex ('0' :: t1.value.data)
  let origin ← word16? origin
  generateLines (lines_metadata.drop 1) [origin] symbol_table

/-- `data.byteswap(); data.tobytes()` on a little-endian host: each
16-bit word is serialized high byte first. -/
def toBytesBE (ws : List Nat) : List Nat :=
  ws.flatMap (fun w => [w / 256 % 256, w % 256])

/-- The whole per-file pipeline of the driver at the bottom of
`assembler.py`: scan, generate, serialize.  The driver ignores
`dup_label_error` (the early return is commented out), so the bytes are
produced regardless of that flag. -/
def assemble (lines : List String) : Option (List Nat) := do
  let r ← scan lines
  let ws ← generate r.symbol_table r.lines_metadata
  pure (toBytesBE ws)

/-- Sign-extension of a `w`-bit field to a signed integer, used to state
the PC-relative-offset property of the spec. -/
def signExtend (w : Nat) (v : Nat) : Int :=
  if v < 2 ^ (w - 1) then (v : Int) else (v : Int) - 2 ^ w

/-! ## Helper lemmas about the lexer -/

/-- `classify_token` always lands in one of the six reachable types. -/
lemma classify_token_cases (i : Nat) (p : List Char) :
    classify_token i p = TokenType.OPCODE ∨
    classify_token i p = TokenType.ASSEMBLER_DIRECTIVE ∨
    classify_token i p = TokenType.REGISTER ∨
    classify_token i p = TokenType.TRAP_CODE ∨
    classify_token i p = TokenType.LABEL ∨
    classify_token i p = TokenType.CONST := by
  unfold classify_token
  repeat' split
  all_goals simp

/-- `classify_token` yields `LABEL` only at fragment index 0. -/
lemma classify_token_label_eq {i : Nat} {p : List Char}
    (h : classify_token i p = TokenType.LABEL) : i = 0 := by
  unfold classify_token at h
  repeat' split at h
  all_goals simp_all

/-- Every token produced by `tokenize_frags i fs` is the classification
of some comma piece of some fragment, at the fragment's index. -/
lemma mem_tokenize_frags {tok : Token} :
    ∀ (i : Nat) (fs : List (List Char)), tok ∈ tokenize_frags i fs →
      ∃ j f p, fs.get? j = some f ∧ p ∈ commaPieces f ∧
        tok = ⟨⟨strip p⟩, classify_token (i + j) p⟩ := by
  intro i fs
  induction fs generalizing i with
  | nil => intro h; cases h
  | cons f rest ih =>
    intro h
    rw [tokenize_frags] at h
    rcases List.mem_append.mp h with h1 | h2
    · rcases List.mem_map.mp h1 with ⟨p, hp, rfl⟩
      exact ⟨0, f, p, rfl, hp, by simp⟩
    · rcases ih (i + 1) h2 with ⟨j, f', p, hg, hp, he⟩
      have harith : i + 1 + j = i + (j + 1) := by omega
      rw [harith] at he
      exact ⟨j + 1, f', p, by simpa using hg, hp, he⟩

/-! ## The claims -/

/-- Claim C1 (code evaluated at a failing input): for the program
`.ORIG x3000` / `MSG .STRINGZ "Hi"` / `LEA R0, MSG` / `.END`, the label
MSG sits at x3000 and the LEA word is emitted at A = x3005, so the
in-range PCoffset9 would be x3000 − x3006 = −6; the emitted word is
0xE0FA (the source masks the offset to 8 bits), and sign-extending its
9-bit offset field and adding it to A+1 does not yield
SymbolTable[MSG]. -/
theorem lea_offset_not_pc_relative :
    assemble [".ORIG x3000", "MSG .STRINGZ \"Hi\"", "LEA R0, MSG", ".END"] =
      some [0x30, 0x00, 0x00, 0x22, 0x00, 0x48, 0x00, 0x69, 0x00, 0x22,
            0x00, 0x00, 0xE0, 0xFA] ∧
    (scan [".ORIG x3000", "MSG .STRINGZ \"Hi\"", "LEA R0, MSG", ".END"]).map
      (fun r => List.lookup "MSG" r.symbol_table) = some (some 0x3000) ∧
    signExtend 9 (0xE0FA % 512) + (0x3005 + 1) ≠ 0x3000 := by decide

/-- Claim C2 (refuted by the table): the static register table maps R3
to 2, R4 to 3, ..., R7 to 6 and has no entry for R2 at all, instead of
mapping each Rn to n. -/
theorem registers_table_shifted :
    List.lookup "R0" registers = some 0 ∧
    List.lookup "R1" registers = some 1 ∧
    List.lookup "R2" registers = none ∧
    List.lookup "R3" registers = some 2 ∧
    List.lookup "R4" registers = some 3 ∧
    List.lookup "R5" registers = some 4 ∧
    List.lookup "R6" registers = some 5 ∧
    List.lookup "R7" registers = some 6 := by decide

/-- Claim C3 (code evaluated at failing inputs): the register-mode ADD
encoder takes both the DR and the SR1 field from the *first* operand
token — `ADD R1, R3, R4` yields 0x1243 (SR1 field = 1, from R1), not an
encoding with SR1 = code of R3 — and immediate mode crashes (`TypeError`:
the raw string `"#1"` is never parsed), so the program
`.ORIG x3000` / `ADD R1, R1, #1` / `.END` produces no output at all, in
particular not the word 0x1263. -/
theorem add_encoder_misreads_sr1 :
    encode_add "ADD" [] 0x3001
      [⟨"ADD", TokenType.OPCODE⟩, ⟨"R1", TokenType.REGISTER⟩,
       ⟨"R3", TokenType.REGISTER⟩, ⟨"R4", TokenType.REGISTER⟩] = some 0x1243 ∧
    assemble [".ORIG x3000", "ADD R1, R1, #1", ".END"] = none := by decide

/-- Claim C4 (code evaluated at a failing input): `.STRINGZ "ab"` emits
the raw token text with the surrounding quotes kept — five words
0x22 0x61 0x62 0x22 0x00, not the three words of the decoded string plus
terminator — and pass 1 advances the location counter by the same
count 5 (len of the raw token + 1). -/
theorem stringz_emits_raw_quoted_text :
    assemble [".ORIG x3000", "A .STRINGZ \"ab\"", ".END"] =
      some [0x30, 0x00, 0x00, 0x22, 0x00, 0x61, 0x00, 0x62, 0x00, 0x22,
            0x00, 0x00] ∧
    assemble [".ORIG x3000", "A .STRINGZ \"ab\"", ".END"] ≠
      some [0x30, 0x00, 0x00, 0x61, 0x00, 0x62, 0x00, 0x00] ∧
    (scan [".ORIG x3000", "A .STRINGZ \"ab\"", ".END"]).map
      (fun r => r.lines_metadata.map Prod.snd) =
      some [0x3000, 0x3005, 0x3005] := by decide

/-- Claim C5 (code evaluated at failing inputs): a `.FILL` line leaves
the pass-1 location counter unchanged (metadata records x3000 for every
line), and pass 2 has no `.FILL` or `.BLKW` handler in `CONDS`, so both
programs die with a `KeyError` and emit nothing. -/
theorem fill_blkw_unimplemented :
    (scan [".ORIG x3000", "A .FILL x10", ".END"]).map
      (fun r => r.lines_metadata.map Prod.snd) =
      some [0x3000, 0x3000, 0x3000] ∧
    assemble [".ORIG x3000", "A .FILL x10", ".END"] = none ∧
    assemble [".ORIG x3000", "A .BLKW 2", ".END"] = none := by decide

/-- Claim C6: assembling `.ORIG x3000` / `HALT` / `.END` produces
exactly the bytes 30 00 F0 25 — origin word first, HALT as 0xF025, each
word serialized high byte first. -/
theorem halt_program_bytes :
    assemble [".ORIG x3000", "HALT", ".END"] =
      some [0x30, 0x00, 0xF0, 0x25] := by decide

/-- Claim C7 (code evaluated at a failing input): on a program defining
the label A twice, pass 1 sets its error flag (the `print`) but — the
early `return` being commented out — silently overwrites A with the
second address (x3001), and the assembler still produces a full byte
image. -/
theorem duplicate_label_overwritten_and_assembled :
    (scan [".ORIG x3000", "A HALT", "HALT", "A HALT", ".END"]).map
      (fun r => (r.symbol_table, r.dup_label_error)) =
      some ([("A", 0x3001)], true) ∧
    assemble [".ORIG x3000", "A HALT", "HALT", "A HALT", ".END"] =
      some [0x30, 0x00, 0xF0, 0x25, 0xF0, 0x25, 0xF0, 0x25] := by decide

/-- Claim C8 (code evaluated at failing inputs): no imm5 range check
exists anywhere — every immediate-mode ADD crashes with `TypeError`
(the operand string is never parsed to a number), so the out-of-range
`#32` dies without an "imm5 out of range" diagnostic and the in-range
boundary immediates `#15` and `#-16` are not accepted either. -/
theorem imm5_never_range_checked :
    assemble [".ORIG x3000", "ADD R0, R0, #32", ".END"] = none ∧
    assemble [".ORIG x3000", "ADD R0, R0, #15", ".END"] = none ∧
    assemble [".ORIG x3000", "ADD R0, R0, #-16", ".END"] = none := by decide

/-- Claim C9 (code evaluated at a failing input): `NOT R0, R1` encodes
to 0x905F, whose low six bits are 011111, not the 111111 of the
documented layout `1001 DR SR 111111` — the source ORs in `0b11111`,
one `1` short. -/
theorem not_low_bits_not_all_ones :
    assemble [".ORIG x3000", "NOT R0, R1", ".END"] =
      some [0x30, 0x00, 0x90, 0x5F] ∧
    (0x905F : Nat) % 64 ≠ 63 := by decide

/-- Claim C10: every token produced by `tokenize_line` has one of the
six types OPCODE, ASSEMBLER_DIRECTIVE, REGISTER, TRAP_CODE, LABEL,
CONST (never STRING or NULL_TOKEN); a LABEL token always comes from a
comma piece of the first whitespace fragment of the line; and at any
later fragment index a token matching no keyword table and not starting
with `.` is classified CONST. -/
theorem tokenize_line_token_types :
    (∀ (line : String), ∀ tok ∈ tokenize_line line,
        tok.token_type ≠ TokenType.STRING ∧
        tok.token_type ≠ TokenType.NULL_TOKEN) ∧
    (∀ (line : String), ∀ tok ∈ tokenize_line line,
        tok.token_type = TokenType.LABEL →
        ∃ f, (fragments line).get? 0 = some f ∧
          ∃ p ∈ commaPieces f, tok = ⟨⟨strip p⟩, classify_token 0 p⟩) ∧
    (∀ (i : Nat) (p : List Char), i ≠ 0 →
        classify_token i p ≠ TokenType.LABEL ∧
        ((List.lookup (⟨p⟩ : String) opcodes).isSome = false →
         (p.head? == some '.') = false →
         (List.lookup (⟨p⟩ : String) registers).isSome = false →
         (List.lookup (⟨p⟩ : String) trap_codes).isSome = false →
         classify_token i p = TokenType.CONST)) := by
  refine ⟨?_, ?_, ?_⟩
  · intro line tok h
    rcases mem_tokenize_frags 0 (fragments line) h with ⟨j, f, p, _, _, rfl⟩
    simp only [Nat.zero_add]
    rcases classify_token_cases j p with h | h | h | h | h | h <;> simp [h]
  · intro line tok h hl
    rcases mem_tokenize_frags 0 (fragments line) h with ⟨j, f, p, hg, hp, rfl⟩
    have hcl : classify_token (0 + j) p = TokenType.LABEL := hl
    have hj : 0 + j = 0 := classify_token_label_eq hcl
    have hj0 : j = 0 := by omega
    subst hj0
    exact ⟨f, hg, p, hp, by simp⟩
  · intro i p hi
    constructor
    · intro h
      exact hi (classify_token_label_eq h)
    · intro h1 h2 h3 h4
      unfold classify_token
      simp [h1, h2, h3, h4, hi]

/-- Witness for C10: the token LOOP in `LOOP ADD R1, R1, #1` is lexed as
a LABEL and is neither STRING nor NULL_TOKEN. -/
theorem tokenize_line_token_types_witness :
    ((⟨"LOOP", TokenType.LABEL⟩ : Token) ∈ tokenize_line "LOOP ADD R1, R1, #1") ∧
    ((⟨"LOOP", TokenType.LABEL⟩ : Token).token_type ≠ TokenType.STRING ∧
     (⟨"LOOP", TokenType.LABEL⟩ : Token).token_type ≠ TokenType.NULL_TOKEN) :=
  ⟨by decide, tokenize_line_token_types.1 "LOOP ADD R1, R1, #1" _ (by decide)⟩

end LC3
